import Mathlib

/-!
Verification of the toolkit-manifest resolution pipeline of this repository.

The repository ships a hand-written master configuration
(`resources/toolset-manifest` style file, here `src/unnamed/part_012`) and the
generated resolved manifests `resources/toolkit-manifest/offline/community.toml`
(an offline document followed by its online counterpart).  We embed both
documents and the master configuration as Lean data, translate the front-end
label resolver `invokeLabel` (from the TypeScript utilities) as a fuel-indexed
function, and prove the spec's claims about them.
-/

namespace RimManifest

/-- One resolved tool entry of a `[tools.target.<triple>.<component>]` table.
Every field of the TOML entries is optional; absent keys are `none`. -/
structure ToolEntry where
  version : Option String := none
  ver : Option String := none
  url : Option String := none
  path : Option String := none
  filename : Option String := none
  identifier : Option String := none
  required : Option Bool := none
  optional : Option Bool := none
deriving DecidableEq

/-- The `[rust]` block of a resolved manifest. -/
structure RustBlock where
  components : List String
  group : String
  offlineDistServer : Option String := none
  optionalComponents : List String
  version : String
deriving DecidableEq

/-- The `[rust.profile]` block of a resolved manifest. -/
structure RustProfile where
  description : String
  name : String
  verboseName : String
deriving DecidableEq

/-- A whole resolved manifest document: header, rust block, profile, the
`[rust.rustup]` bootstrap-installer table (offline only, empty otherwise),
descriptions, groups and the per-target tool tables, all in file order. -/
structure Manifest where
  name : String
  version : String
  rust : RustBlock
  profile : RustProfile
  rustup : List (String × String) := []
  descriptions : List (String × String)
  groups : List (String × List String)
  tools : List (String × List (String × ToolEntry))
deriving DecidableEq

/-- The offline document of `resources/toolkit-manifest/offline/community.toml`. -/
def offlineCommunity : Manifest where
  name := "Rust 中国社区一站式开发套件"
  version := "stable v1.84.1"
  rust :=
    { components := ["clippy", "rustfmt", "rust-src"]
      group := "Rust 基础工具集"
      offlineDistServer := some "toolchain"
      optionalComponents := ["llvm-tools", "rustc-dev", "rust-docs"]
      version := "1.84.1" }
  profile :=
    { description := "Rust 官方工具链，包含 rustc (编译器), rust-std (标准库), cargo (包管理) 等工具"
      name := "minimal"
      verboseName := "Rust 官方工具" }
  rustup :=
    [ ("aarch64-unknown-linux-gnu", "tools/rustup-init")
    , ("aarch64-unknown-linux-musl", "tools/rustup-init")
    , ("x86_64-pc-windows-gnu", "tools/rustup-init.exe")
    , ("x86_64-pc-windows-msvc", "tools/rustup-init.exe")
    , ("x86_64-unknown-linux-gnu", "tools/rustup-init")
    , ("x86_64-unknown-linux-musl", "tools/rustup-init") ]
  descriptions :=
    [ ("cargo-nextest", "新一代 Rust 项目测试运行程序，相比传统 cargo test 而言更快速，界面更简洁明了")
    , ("llvm-tools", "包含 LLVM 工具的集合")
    , ("mingw64", "编译器在 x86_64 Windows GNU 环境下的依赖组件")
    , ("rust-docs", "本地 Rust 文档副本，允许用户使用 rustup doc 命令在 Web 浏览器中打开文档")
    , ("rustc-dev", "将编译器作为库来内部 API。大多数用户不需要这个; 仅当开发链接到编译器的工具时才需要它, 例如对 Clippy 进行修改")
    , ("typos", "源代码拼写检查器，用于查找并纠正源代码中的拼写错误")
    , ("vscode", "Visual Studio Code (简称 VS Code) 将代码编辑器的简洁性与开发者核心的 编辑-构建-调试 流程相结合。它提供全面的代码编辑、导航和理解支持，同时具备轻量级调试功能、丰富的扩展模型，并可与现有工具无缝集成，提升开发效率。")
    , ("vscode-rust-analyzer (插件)", "Rust 编程语言的 语言服务器协议 (LSP) 实现。为 VS Code 编辑器提供代码补全、跳转到定义 等功能，提升 Rust 开发体验。") ]
  groups :=
    [ ("Rust 优选工具集", ["typos", "cargo-nextest"])
    , ("Rust 基础工具集", ["mingw64"])
    , ("Rust 软件开发工具链", ["vscode", "vscode-rust-analyzer (插件)"]) ]
  tools :=
    [ ("aarch64-unknown-linux-gnu",
       [ ("cargo-nextest",
          { optional := some true
            path := some "tools/cargo-nextest-0.9.87-aarch64-unknown-linux-gnu.tar.gz"
            version := some "0.9.87" })
       , ("typos",
          { identifier := some "typos-cli", optional := some true, ver := some "1.28.4" })
       , ("vscode",
          { filename := some "vscode.tar.gz", optional := some true
            path := some "tools/vscode.tar.gz", version := some "1.97.1" })
       , ("vscode-rust-analyzer (插件)",
          { path := some "tools/rust-analyzer-linux-arm64.vsix", version := some "0.3.2299" }) ])
    , ("aarch64-unknown-linux-musl",
       [ ("cargo-nextest", { optional := some true, ver := some "0.9.87" })
       , ("typos",
          { identifier := some "typos-cli", optional := some true, ver := some "1.28.4" })
       , ("vscode",
          { filename := some "vscode.tar.gz", optional := some true
            path := some "tools/vscode.tar.gz", version := some "1.97.1" })
       , ("vscode-rust-analyzer (插件)",
          { path := some "tools/rust-analyzer-linux-arm64.vsix", version := some "0.3.2299" }) ])
    , ("x86_64-pc-windows-gnu",
       [ ("cargo-nextest",
          { optional := some true
            path := some "tools/cargo-nextest-0.9.87-x86_64-pc-windows-msvc.zip"
            version := some "0.9.87" })
       , ("mingw64",
          { path := some "tools/x86_64-14.2.0-release-posix-seh-ucrt-rt_v12-rev0.7z"
            required := some true, version := some "14.2.0-rt_v12-rev0" })
       , ("typos",
          { optional := some true
            path := some "tools/typos-v1.28.4-x86_64-pc-windows-msvc.zip"
            version := some "1.28.4" })
       , ("vscode",
          { filename := some "vscode.zip", path := some "tools/vscode.zip"
            version := some "1.97.1" })
       , ("vscode-rust-analyzer (插件)",
          { path := some "tools/rust-analyzer-win32-x64.vsix", version := some "0.3.2299" }) ])
    , ("x86_64-pc-windows-msvc",
       [ ("cargo-nextest",
          { optional := some true
            path := some "tools/cargo-nextest-0.9.87-x86_64-pc-windows-msvc.zip"
            version := some "0.9.87" })
       , ("typos",
          { optional := some true
            path := some "tools/typos-v1.28.4-x86_64-pc-windows-msvc.zip"
            version := some "1.28.4" })
       , ("vscode",
          { filename := some "vscode.zip", path := some "tools/vscode.zip"
            version := some "1.97.1" })
       , ("vscode-rust-analyzer (插件)",
          { path := some "tools/rust-analyzer-win32-x64.vsix", version := some "0.3.2299" }) ])
    , ("x86_64-unknown-linux-gnu",
       [ ("cargo-nextest",
          { optional := some true
            path := some "tools/cargo-nextest-0.9.87-x86_64-unknown-linux-gnu.tar.gz"
            version := some "0.9.87" })
       , ("typos",
          { optional := some true
            path := some "tools/typos-v1.28.4-x86_64-unknown-linux-musl.tar.gz"
            version := some "1.28.4" })
       , ("vscode",
          { filename := some "vscode.tar.gz", optional := some true
            path := some "tools/vscode.tar.gz", version := some "1.97.1" })
       , ("vscode-rust-analyzer (插件)",
          { path := some "tools/rust-analyzer-linux-x64.vsix", version := some "0.3.2299" }) ])
    , ("x86_64-unknown-linux-musl",
       [ ("cargo-nextest", { optional := some true, ver := some "0.9.87" })
       , ("typos",
          { optional := some true
            path := some "tools/typos-v1.28.4-x86_64-unknown-linux-musl.tar.gz"
            version := some "1.28.4" })
       , ("vscode",
          { filename := some "vscode.tar.gz", optional := some true
            path := some "tools/vscode.tar.gz", version := some "1.97.1" })
       , ("vscode-rust-analyzer (插件)",
          { path := some "tools/rust-analyzer-linux-x64.vsix", version := some "0.3.2299" }) ]) ]

/-- The online document of `resources/toolkit-manifest/offline/community.toml`
(the second document in the file, after the separator). -/
def onlineCommunity : Manifest where
  name := "Rust 中国社区一站式开发套件"
  version := "stable v1.84.1"
  rust :=
    { components := ["clippy", "rustfmt", "rust-src"]
      group := "Rust 基础工具集"
      optionalComponents := ["llvm-tools", "rustc-dev", "rust-docs"]
      version := "1.84.1" }
  profile :=
    { description := "Rust 官方工具链，包含 rustc (编译器), rust-std (标准库), cargo (包管理) 等工具"
      name := "minimal"
      verboseName := "Rust 官方工具" }
  descriptions :=
    [ ("cargo-nextest", "新一代 Rust 项目测试运行程序，相比传统 cargo test 而言更快速，界面更简洁明了")
    , ("llvm-tools", "包含 LLVM 工具的集合")
    , ("mingw64", "编译器在 x86_64 Windows GNU 环境下的依赖组件")
    , ("rust-docs", "本地 Rust 文档副本，允许用户使用 rustup doc 命令在 Web 浏览器中打开文档")
    , ("rustc-dev", "将编译器作为库来内部 API。大多数用户不需要这个; 仅当开发链接到编译器的工具时才需要它, 例如对 Clippy 进行修改")
    , ("typos", "源代码拼写检查器，用于查找并纠正源代码中的拼写错误")
    , ("vscode", "Visual Studio Code (简称 VS Code) 将代码编辑器的简洁性与开发者核心的 编辑-构建-调试 流程相结合。它提供全面的代码编辑、导航和理解支持，同时具备轻量级调试功能、丰富的扩展模型，并可与现有工具无缝集成，提升开发效率。")
    , ("vscode-rust-analyzer (插件)", "Rust 编程语言的 语言服务器协议 (LSP) 实现。为 VS Code 编辑器提供代码补全、跳转到定义 等功能，提升 Rust 开发体验。") ]
  groups :=
    [ ("Rust 优选工具集", ["typos", "cargo-nextest"])
    , ("Rust 基础工具集", ["mingw64"])
    , ("Rust 软件开发工具链", ["vscode", "vscode-rust-analyzer (插件)"]) ]
  tools :=
    [ ("aarch64-unknown-linux-gnu",
       [ ("cargo-nextest",
          { optional := some true
            url := some "https://rust-mirror.obs.cn-north-4.myhuaweicloud.com/dist/toolset/cargo-nextest/cargo-nextest-0.9.87-aarch64-unknown-linux-gnu.tar.gz"
            version := some "0.9.87" })
       , ("typos",
          { identifier := some "typos-cli", optional := some true, ver := some "1.28.4" })
       , ("vscode",
          { filename := some "vscode.tar.gz", optional := some true
            url := some "https://update.code.visualstudio.com/1.97.1/linux-arm64/stable"
            version := some "1.97.1" })
       , ("vscode-rust-analyzer (插件)",
          { url := some "https://github.com/rust-lang/rust-analyzer/releases/download/2025-02-10/rust-analyzer-linux-arm64.vsix"
            version := some "0.3.2299" }) ])
    , ("aarch64-unknown-linux-musl",
       [ ("cargo-nextest", { optional := some true, ver := some "0.9.87" })
       , ("typos",
          { identifier := some "typos-cli", optional := some true, ver := some "1.28.4" })
       , ("vscode",
          { filename := some "vscode.tar.gz", optional := some true
            url := some "https://update.code.visualstudio.com/1.97.1/linux-arm64/stable"
            version := some "1.97.1" })
       , ("vscode-rust-analyzer (插件)",
          { url := some "https://github.com/rust-lang/rust-analyzer/releases/download/2025-02-10/rust-analyzer-linux-arm64.vsix"
            version := some "0.3.2299" }) ])
    , ("x86_64-pc-windows-gnu",
       [ ("cargo-nextest",
          { optional := some true
            url := some "https://rust-mirror.obs.cn-north-4.myhuaweicloud.com/dist/toolset/cargo-nextest/cargo-nextest-0.9.87-x86_64-pc-windows-msvc.zip"
            version := some "0.9.87" })
       , ("mingw64",
          { required := some true
            url := some "https://rust-mirror.obs.cn-north-4.myhuaweicloud.com/dist/toolset/x86_64-14.2.0-release-posix-seh-ucrt-rt_v12-rev0.7z"
            version := some "14.2.0-rt_v12-rev0" })
       , ("typos",
          { optional := some true
            url := some "https://rust-mirror.obs.cn-north-4.myhuaweicloud.com/dist/toolset/typos/typos-v1.28.4-x86_64-pc-windows-msvc.zip"
            version := some "1.28.4" })
       , ("vscode",
          { filename := some "vscode.zip"
            url := some "https://update.code.visualstudio.com/1.97.1/win32-x64-archive/stable"
            version := some "1.97.1" })
       , ("vscode-rust-analyzer (插件)",
          { url := some "https://github.com/rust-lang/rust-analyzer/releases/download/2025-02-10/rust-analyzer-win32-x64.vsix"
            version := some "0.3.2299" }) ])
    , ("x86_64-pc-windows-msvc",
       [ ("cargo-nextest",
          { optional := some true
            url := some "https://rust-mirror.obs.cn-north-4.myhuaweicloud.com/dist/toolset/cargo-nextest/cargo-nextest-0.9.87-x86_64-pc-windows-msvc.zip"
            version := some "0.9.87" })
       , ("typos",
          { optional := some true
            url := some "https://rust-mirror.obs.cn-north-4.myhuaweicloud.com/dist/toolset/typos/typos-v1.28.4-x86_64-pc-windows-msvc.zip"
            version := some "1.28.4" })
       , ("vscode",
          { filename := some "vscode.zip"
            url := some "https://update.code.visualstudio.com/1.97.1/win32-x64-archive/stable"
            version := some "1.97.1" })
       , ("vscode-rust-analyzer (插件)",
          { url := some "https://github.com/rust-lang/rust-analyzer/releases/download/2025-02-10/rust-analyzer-win32-x64.vsix"
            version := some "0.3.2299" }) ])
    , ("x86_64-unknown-linux-gnu",
       [ ("cargo-nextest",
          { optional := some true
            url := some "https://rust-mirror.obs.cn-north-4.myhuaweicloud.com/dist/toolset/cargo-nextest/cargo-nextest-0.9.87-x86_64-unknown-linux-gnu.tar.gz"
            version := some "0.9.87" })
       , ("typos",
          { optional := some true
            url := some "https://rust-mirror.obs.cn-north-4.myhuaweicloud.com/dist/toolset/typos/typos-v1.28.4-x86_64-unknown-linux-musl.tar.gz"
            version := some "1.28.4" })
       , ("vscode",
          { filename := some "vscode.tar.gz", optional := some true
            url := some "https://update.code.visualstudio.com/1.97.1/linux-x64/stable"
            version := some "1.97.1" })
       , ("vscode-rust-analyzer (插件)",
          { url := some "https://github.com/rust-lang/rust-analyzer/releases/download/2025-02-10/rust-analyzer-linux-x64.vsix"
            version := some "0.3.2299" }) ])
    , ("x86_64-unknown-linux-musl",
       [ ("cargo-nextest", { optional := some true, ver := some "0.9.87" })
       , ("typos",
          { optional := some true
            url := some "https://rust-mirror.obs.cn-north-4.myhuaweicloud.com/dist/toolset/typos/typos-v1.28.4-x86_64-unknown-linux-musl.tar.gz"
            version := some "1.28.4" })
       , ("vscode",
          { filename := some "vscode.tar.gz", optional := some true
            url := some "https://update.code.visualstudio.com/1.97.1/linux-x64/stable"
            version := some "1.97.1" })
       , ("vscode-rust-analyzer (插件)",
          { url := some "https://github.com/rust-lang/rust-analyzer/releases/download/2025-02-10/rust-analyzer-linux-x64.vsix"
            version := some "0.3.2299" }) ]) ]

/-- A declared target of the master configuration's `[config].targets` list:
either a bare triple or a triple with a release-mode tag. -/
structure DeclaredTarget where
  triple : String
  releaseMode : Option String := none
deriving DecidableEq

/-- A component of the master configuration's `[config].components` catalog:
a name, an optional exclusion list, a wildcard flag, and an optional single
target restriction (as for `rust-mingw`). -/
structure CatalogComponent where
  name : String
  excludedTargets : List String := []
  wildcardTarget : Bool := false
  onlyTarget : Option String := none
deriving DecidableEq

/-- `[config].targets` of the master configuration (`src/unnamed/part_012`). -/
def masterTargets : List DeclaredTarget :=
  [ { triple := "aarch64-unknown-linux-gnu" }
  , { triple := "aarch64-unknown-linux-musl", releaseMode := some "cli" }
  , { triple := "x86_64-pc-windows-gnu" }
  , { triple := "x86_64-pc-windows-msvc" }
  , { triple := "x86_64-unknown-linux-gnu" }
  , { triple := "x86_64-unknown-linux-musl", releaseMode := some "cli" } ]

/-- `[config].components` of the master configuration. -/
def masterComponents : List CatalogComponent :=
  [ { name := "cargo" }
  , { name := "clippy" }
  , { name := "rust-std" }
  , { name := "rust-docs", excludedTargets := ["aarch64-unknown-linux-musl"] }
  , { name := "rustc" }
  , { name := "rustc-dev" }
  , { name := "rustfmt" }
  , { name := "llvm-tools" }
  , { name := "rust-mingw", onlyTarget := some "x86_64-pc-windows-gnu" }
  , { name := "rust-src", wildcardTarget := true } ]

/-- `[toolkit.community.value.rust].components` of the master configuration. -/
def communityRustComponents : List String := ["clippy", "rustfmt", "rust-src"]

/-- `[toolkit.community.value.rust].optional-components` of the master
configuration. -/
def communityRustOptionalComponents : List String :=
  ["llvm-tools", "rustc-dev", "rust-docs"]

/-- The `[toolkit.community.value.tools.target.<triple>]` override tables of
the master configuration, in file order. -/
def communityMasterTools : List (String × List (String × ToolEntry)) :=
  [ ("x86_64-pc-windows-gnu",
     [ ("vscode",
        { version := some "1.97.1", filename := some "vscode.zip"
          url := some "https://update.code.visualstudio.com/1.97.1/win32-x64-archive/stable" })
     , ("vscode-rust-analyzer (插件)",
        { version := some "0.3.2299"
          url := some "https://github.com/rust-lang/rust-analyzer/releases/download/2025-02-10/rust-analyzer-win32-x64.vsix" })
     , ("mingw64",
        { required := some true, version := some "14.2.0-rt_v12-rev0"
          url := some "https://rust-mirror.obs.cn-north-4.myhuaweicloud.com/dist/toolset/x86_64-14.2.0-release-posix-seh-ucrt-rt_v12-rev0.7z" })
     , ("cargo-nextest",
        { optional := some true, version := some "0.9.87"
          url := some "https://rust-mirror.obs.cn-north-4.myhuaweicloud.com/dist/toolset/cargo-nextest/cargo-nextest-0.9.87-x86_64-pc-windows-msvc.zip" })
     , ("typos",
        { optional := some true, version := some "1.28.4"
          url := some "https://rust-mirror.obs.cn-north-4.myhuaweicloud.com/dist/toolset/typos/typos-v1.28.4-x86_64-pc-windows-msvc.zip" }) ])
  , ("x86_64-pc-windows-msvc",
     [ ("vscode",
        { version := some "1.97.1", filename := some "vscode.zip"
          url := some "https://update.code.visualstudio.com/1.97.1/win32-x64-archive/stable" })
     , ("vscode-rust-analyzer (插件)",
        { version := some "0.3.2299"
          url := some "https://github.com/rust-lang/rust-analyzer/releases/download/2025-02-10/rust-analyzer-win32-x64.vsix" })
     , ("cargo-nextest",
        { optional := some true, version := some "0.9.87"
          url := some "https://rust-mirror.obs.cn-north-4.myhuaweicloud.com/dist/toolset/cargo-nextest/cargo-nextest-0.9.87-x86_64-pc-windows-msvc.zip" })
     , ("typos",
        { optional := some true, version := some "1.28.4"
          url := some "https://rust-mirror.obs.cn-north-4.myhuaweicloud.com/dist/toolset/typos/typos-v1.28.4-x86_64-pc-windows-msvc.zip" }) ])
  , ("x86_64-unknown-linux-gnu",
     [ ("vscode",
        { optional := some true, version := some "1.97.1", filename := some "vscode.tar.gz"
          url := some "https://update.code.visualstudio.com/1.97.1/linux-x64/stable" })
     , ("vscode-rust-analyzer (插件)",
        { version := some "0.3.2299"
          url := some "https://github.com/rust-lang/rust-analyzer/releases/download/2025-02-10/rust-analyzer-linux-x64.vsix" })
     , ("cargo-nextest",
        { optional := some true, version := some "0.9.87"
          url := some "https://rust-mirror.obs.cn-north-4.myhuaweicloud.com/dist/toolset/cargo-nextest/cargo-nextest-0.9.87-x86_64-unknown-linux-gnu.tar.gz" })
     , ("typos",
        { optional := some true, version := some "1.28.4"
          url := some "https://rust-mirror.obs.cn-north-4.myhuaweicloud.com/dist/toolset/typos/typos-v1.28.4-x86_64-unknown-linux-musl.tar.gz" }) ])
  , ("x86_64-unknown-linux-musl",
     [ ("vscode",
        { optional := some true, version := some "1.97.1", filename := some "vscode.tar.gz"
          url := some "https://update.code.visualstudio.com/1.97.1/linux-x64/stable" })
     , ("vscode-rust-analyzer (插件)",
        { version := some "0.3.2299"
          url := some "https://github.com/rust-lang/rust-analyzer/releases/download/2025-02-10/rust-analyzer-linux-x64.vsix" })
     , ("cargo-nextest", { optional := some true, ver := some "0.9.87" })
     , ("typos",
        { optional := some true, version := some "1.28.4"
          url := some "https://rust-mirror.obs.cn-north-4.myhuaweicloud.com/dist/toolset/typos/typos-v1.28.4-x86_64-unknown-linux-musl.tar.gz" }) ])
  , ("aarch64-unknown-linux-gnu",
     [ ("vscode",
        { optional := some true, version := some "1.97.1", filename := some "vscode.tar.gz"
          url := some "https://update.code.visualstudio.com/1.97.1/linux-arm64/stable" })
     , ("vscode-rust-analyzer (插件)",
        { version := some "0.3.2299"
          url := some "https://github.com/rust-lang/rust-analyzer/releases/download/2025-02-10/rust-analyzer-linux-arm64.vsix" })
     , ("cargo-nextest",
        { optional := some true, version := some "0.9.87"
          url := some "https://rust-mirror.obs.cn-north-4.myhuaweicloud.com/dist/toolset/cargo-nextest/cargo-nextest-0.9.87-aarch64-unknown-linux-gnu.tar.gz" })
     , ("typos",
        { optional := some true, ver := some "1.28.4", identifier := some "typos-cli" }) ])
  , ("aarch64-unknown-linux-musl",
     [ ("vscode",
        { optional := some true, version := some "1.97.1", filename := some "vscode.tar.gz"
          url := some "https://update.code.visualstudio.com/1.97.1/linux-arm64/stable" })
     , ("vscode-rust-analyzer (插件)",
        { version := some "0.3.2299"
          url := some "https://github.com/rust-lang/rust-analyzer/releases/download/2025-02-10/rust-analyzer-linux-arm64.vsix" })
     , ("cargo-nextest", { optional := some true, ver := some "0.9.87" })
     , ("typos",
        { optional := some true, ver := some "1.28.4", identifier := some "typos-cli" }) ]) ]

/-- The (target, component-key list) skeleton of a manifest's tool tables. -/
def toolsKeys (m : Manifest) : List (String × List String) :=
  m.tools.map (fun tc => (tc.1, tc.2.map Prod.fst))

/-- No tool entry of the manifest carries a `url` field. -/
def noUrlAnywhere (m : Manifest) : Bool :=
  m.tools.all (fun tc => tc.2.all (fun ce => ce.2.url == none))

/-- No tool entry of the manifest carries a `path` field. -/
def noPathAnywhere (m : Manifest) : Bool :=
  m.tools.all (fun tc => tc.2.all (fun ce => ce.2.path == none))

/-- **C1.** Offline and online documents have identical (component, target)
skeletons; no offline entry carries a `url`, and no online entry carries a
`path` — so in particular, for every component/target pair, the offline entry
has no `url` and the online entry for the same pair has no `path`. -/
theorem C1_offline_no_url_online_no_path :
    noUrlAnywhere offlineCommunity = true ∧
    noPathAnywhere onlineCommunity = true ∧
    toolsKeys offlineCommunity = toolsKeys onlineCommunity := by
  refine ⟨by decide, by decide, by decide⟩

/-- Auxiliary scan for `lastSegment`: keeps the characters seen since the last
slash. -/
def lastSegAux : List Char → List Char → List Char
  | [], acc => acc.reverse
  | c :: rest, acc =>
    if c = '/' then lastSegAux rest [] else lastSegAux rest (c :: acc)

/-- The final path segment of a URL string: everything after the last `/`. -/
def lastSegment (s : String) : String := String.mk (lastSegAux s.data [])

/-- `strEndsWith s t` holds when `s` ends with `t`. -/
def strEndsWith (s t : String) : Bool := t.data.isSuffixOf s.data

/-- Look up the entry for `(target, comp)` in a per-target tool table list. -/
def lookupTool (tools : List (String × List (String × ToolEntry)))
    (target comp : String) : Option ToolEntry :=
  match tools.find? (fun tc => tc.1 == target) with
  | none => none
  | some tc => (tc.2.find? (fun ce => ce.1 == comp)).map Prod.snd

/-- Canonical-name check for one master entry against the offline manifest:
entries without a `url` are not vendored and pass vacuously; an entry with a
`url` must have an offline counterpart whose `path` ends in the declared
`filename` when one is present, and otherwise in the final path segment of
the `url`. -/
def canonicalFor (target comp : String) (e : ToolEntry) : Bool :=
  match e.url with
  | none => true
  | some u =>
    match lookupTool offlineCommunity.tools target comp with
    | none => false
    | some oe =>
      match oe.path with
      | none => false
      | some p =>
        match e.filename with
        | some f => strEndsWith p f
        | none => strEndsWith p (lastSegment u)

/-- All master-configuration community entries satisfy `canonicalFor`. -/
def offlinePathsCanonical : Bool :=
  communityMasterTools.all (fun tc => tc.2.all (fun ce => canonicalFor tc.1 ce.1 ce.2))

/-- **C2.** For every community master-configuration entry carrying a remote
`url`, the local cache path recorded in the offline manifest ends in the
declared `filename` when present, and otherwise in the final path segment of
that `url`. -/
theorem C2_offline_paths_canonical : offlinePathsCanonical = true := by decide

/-- Names of the wildcard-flagged components of a catalog. -/
def wildcardNames (catalog : List CatalogComponent) : List String :=
  (catalog.filter (fun c => c.wildcardTarget)).map (fun c => c.name)

/-- Whether the catalog's entry for component `n` excludes `target`. -/
def excludedByCatalog (catalog : List CatalogComponent) (n target : String) : Bool :=
  match catalog.find? (fun c => c.name == n) with
  | none => false
  | some c => c.excludedTargets.contains target

/-- Modelled from the spec: the Override Resolver's component-selection steps
(the `cargo dev` resolver that generates the manifests is not among the
provided sources).  Step 1 starts from the union of the toolkit's required and
optional component lists plus any wildcard-flagged components of the shared
catalog; step 2 removes every component whose exclusion list contains this
target. -/
def resolvedComponentNames (requiredComponents optionalComponents : List String)
    (catalog : List CatalogComponent) (target : String) : List String :=
  (requiredComponents ++ optionalComponents ++ wildcardNames catalog).filter
    (fun n => ! excludedByCatalog catalog n target)

/-- The community toolkit's selected rust-component names for one target,
resolved against the master configuration's catalog. -/
def resolvedCommunity (target : String) : List String :=
  resolvedComponentNames communityRustComponents communityRustOptionalComponents
    masterComponents target

/-- **C3.** A component whose exclusion list contains the target never appears
in that target's resolved selection; in particular `rust-docs` (excluded on
`aarch64-unknown-linux-musl`) is absent from that target's selection and
present in the one for `x86_64-unknown-linux-gnu`. -/
theorem C3_exclusion_wins :
    (∀ (rc oc : List String) (catalog : List CatalogComponent) (n target : String),
        excludedByCatalog catalog n target = true →
        n ∉ resolvedComponentNames rc oc catalog target) ∧
    "rust-docs" ∉ resolvedCommunity "aarch64-unknown-linux-musl" ∧
    "rust-docs" ∈ resolvedCommunity "x86_64-unknown-linux-gnu" := by
  refine ⟨?_, by decide, by decide⟩
  intro rc oc catalog n target hexcl hmem
  have h := (List.mem_filter.mp hmem).2
  rw [hexcl] at h
  simp at h

/-- Witness for C3's general conjunct at a concrete input. -/
theorem C3_exclusion_wins_witness :
    "rust-docs" ∉ resolvedComponentNames communityRustComponents
      communityRustOptionalComponents masterComponents "aarch64-unknown-linux-musl" :=
  C3_exclusion_wins.1 communityRustComponents communityRustOptionalComponents
    masterComponents "rust-docs" "aarch64-unknown-linux-musl" (by decide)

/-- **C4.** A wildcard-flagged component appears in the resolved selection of
every target not in its exclusion list; in particular `rust-src` appears in
the community selection for all six declared target triples. -/
theorem C4_wildcard_everywhere :
    (∀ (rc oc : List String) (catalog : List CatalogComponent) (n target : String),
        n ∈ wildcardNames catalog →
        excludedByCatalog catalog n target = false →
        n ∈ resolvedComponentNames rc oc catalog target) ∧
    masterTargets.map (fun t => t.triple) =
      ["aarch64-unknown-linux-gnu", "aarch64-unknown-linux-musl",
       "x86_64-pc-windows-gnu", "x86_64-pc-windows-msvc",
       "x86_64-unknown-linux-gnu", "x86_64-unknown-linux-musl"] ∧
    masterTargets.all (fun t => (resolvedCommunity t.triple).contains "rust-src") = true := by
  refine ⟨?_, by decide, by decide⟩
  intro rc oc catalog n target hw hexcl
  refine List.mem_filter.mpr ⟨?_, ?_⟩
  · exact List.mem_append.mpr (Or.inr hw)
  · rw [hexcl]
    decide

/-- Witness for C4's general conjunct at a concrete input. -/
theorem C4_wildcard_everywhere_witness :
    "rust-src" ∈ resolvedComponentNames communityRustComponents
      communityRustOptionalComponents masterComponents "x86_64-pc-windows-gnu" :=
  C4_wildcard_everywhere.1 communityRustComponents communityRustOptionalComponents
    masterComponents "rust-src" "x86_64-pc-windows-gnu" (by decide) (by decide)

/-- The windows-specific cargo-nextest download URL of the master configuration. -/
def windowsNextestUrl : String :=
  "https://rust-mirror.obs.cn-north-4.myhuaweicloud.com/dist/toolset/cargo-nextest/cargo-nextest-0.9.87-x86_64-pc-windows-msvc.zip"

/-- The offline cache path corresponding to `windowsNextestUrl`. -/
def windowsNextestPath : String :=
  "tools/cargo-nextest-0.9.87-x86_64-pc-windows-msvc.zip"

/-- **C5.** The `x86_64-pc-windows-gnu` entry for `cargo-nextest` carries
`optional = true` together with the windows-specific `url` (online) and the
corresponding `path` (offline); the `x86_64-unknown-linux-gnu` entry carries
its own independently declared URL/path and never the windows one. -/
theorem C5_nextest_target_specific :
    (lookupTool onlineCommunity.tools "x86_64-pc-windows-gnu" "cargo-nextest").map
        (fun e => (e.optional, e.url)) = some (some true, some windowsNextestUrl) ∧
    (lookupTool offlineCommunity.tools "x86_64-pc-windows-gnu" "cargo-nextest").map
        (fun e => (e.optional, e.path)) = some (some true, some windowsNextestPath) ∧
    (lookupTool onlineCommunity.tools "x86_64-unknown-linux-gnu" "cargo-nextest").map
        (fun e => e.url) =
      some (some "https://rust-mirror.obs.cn-north-4.myhuaweicloud.com/dist/toolset/cargo-nextest/cargo-nextest-0.9.87-x86_64-unknown-linux-gnu.tar.gz") ∧
    ((lookupTool onlineCommunity.tools "x86_64-unknown-linux-gnu" "cargo-nextest").map
        (fun e => e.url) == some (some windowsNextestUrl)) = false ∧
    (lookupTool offlineCommunity.tools "x86_64-unknown-linux-gnu" "cargo-nextest").map
        (fun e => e.path) =
      some (some "tools/cargo-nextest-0.9.87-x86_64-unknown-linux-gnu.tar.gz") ∧
    ((lookupTool offlineCommunity.tools "x86_64-unknown-linux-gnu" "cargo-nextest").map
        (fun e => e.path) == some (some windowsNextestPath)) = false := by
  decide

/-- Strict lexicographic order on character lists, by codepoint. -/
def charListLt : List Char → List Char → Bool
  | [], [] => false
  | [], _ :: _ => true
  | _ :: _, [] => false
  | a :: as, b :: bs =>
    if a.val.toNat < b.val.toNat then true
    else if b.val.toNat < a.val.toNat then false
    else charListLt as bs

/-- Strict lexicographic order on strings, by codepoint. -/
def strLt (a b : String) : Bool := charListLt a.data b.data

/-- Strict lexicographic sortedness of a list of strings. -/
def strictSorted : List String → Bool
  | [] => true
  | [_] => true
  | a :: b :: rest => strLt a b && strictSorted (b :: rest)

/-- A manifest's target keys are strictly sorted and, within every target,
its component keys are strictly sorted. -/
def manifestCanonicallyOrdered (m : Manifest) : Bool :=
  strictSorted (m.tools.map Prod.fst) &&
  m.tools.all (fun tc => strictSorted (tc.2.map Prod.fst))

/-- **C6.** In both emitted manifests the target triples appear in strict
lexicographic order and, within each target, the component keys appear in
strict lexicographic order.  (For the pure resolution function this canonical
order makes repeated runs over the same input byte-identical.) -/
theorem C6_canonical_ordering :
    manifestCanonicallyOrdered offlineCommunity = true ∧
    manifestCanonicallyOrdered onlineCommunity = true := by
  decide

/-- Whether `needle` occurs as a contiguous sublist of the second list. -/
def containsSub (needle : List Char) : List Char → Bool
  | [] => needle.isEmpty
  | c :: rest => needle.isPrefixOf (c :: rest) || containsSub needle rest

/-- Whether a target triple is a windows triple. -/
def isWindowsTriple (t : String) : Bool := containsSub "windows".data t.data

/-- **C7.** The offline document carries `offline-dist-server` and a
`[rust.rustup]` table with exactly one entry per declared target triple, the
windows triples mapping to `.exe` installer paths; the online document carries
neither. -/
theorem C7_offline_only_rustup :
    offlineCommunity.rust.offlineDistServer = some "toolchain" ∧
    offlineCommunity.rustup.map Prod.fst = masterTargets.map (fun t => t.triple) ∧
    offlineCommunity.rustup.all
      (fun tp => ! isWindowsTriple tp.1 || strEndsWith tp.2 ".exe") = true ∧
    onlineCommunity.rust.offlineDistServer = none ∧
    onlineCommunity.rustup = [] := by
  decide

/-- **C8.** The two modes agree verbatim on the toolkit header, the shared
`rust` block fields, the profile block, and the descriptions and group
dictionaries. -/
theorem C8_shared_blocks_verbatim :
    offlineCommunity.name = onlineCommunity.name ∧
    offlineCommunity.version = onlineCommunity.version ∧
    offlineCommunity.rust.components = onlineCommunity.rust.components ∧
    offlineCommunity.rust.group = onlineCommunity.rust.group ∧
    offlineCommunity.rust.version = onlineCommunity.rust.version ∧
    offlineCommunity.rust.optionalComponents = onlineCommunity.rust.optionalComponents ∧
    offlineCommunity.profile = onlineCommunity.profile ∧
    offlineCommunity.descriptions = onlineCommunity.descriptions ∧
    offlineCommunity.groups = onlineCommunity.groups := by
  decide

/-- One tool entry uses exactly one resolution strategy: `version` together
with `url` (online) or `path` (offline), or `ver` with neither `url` nor
`path`; never both `version` and `ver`, and never neither. -/
def entryStrategyOk (online : Bool) (e : ToolEntry) : Bool :=
  match e.version, e.ver with
  | some _, none =>
    if online then e.url != none && e.path == none
    else e.path != none && e.url == none
  | none, some _ => e.url == none && e.path == none
  | _, _ => false

/-- Every entry of the manifest satisfies `entryStrategyOk`. -/
def strategiesOk (online : Bool) (m : Manifest) : Bool :=
  m.tools.all (fun tc => tc.2.all (fun ce => entryStrategyOk online ce.2))

/-- **C9.** Every resolved tool entry of both modes uses exactly one of the
two resolution strategies, and no entry carries both `version` and `ver`. -/
theorem C9_two_strategies :
    strategiesOk true onlineCommunity = true ∧
    strategiesOk false offlineCommunity = true := by
  decide

/-- A parsed segment of a label text as decomposed by the placeholder regex of
the front-end `invokeLabel`: literal text, or a placeholder naming another
label key. -/
inductive Seg
  | lit : String → Seg
  | ph : String → Seg
deriving DecidableEq

/-- Resolve each segment of a label text: literal text stands for itself and a
placeholder is replaced by the resolver's value for its key; the whole list
fails when the resolver fails on any placeholder. -/
def resolveSegs (resolve : String → Option String) : List Seg → Option (List String)
  | [] => some []
  | Seg.lit t :: rest => (resolveSegs resolve rest).map (fun l => t :: l)
  | Seg.ph k :: rest =>
    match resolve k with
    | none => none
    | some v =>
      match resolveSegs resolve rest with
      | none => none
      | some l => some (v :: l)

/-- Translation of the front-end `invokeLabel` (src/unnamed/part_004): fetch
the label text for `key` — here the pre-parsed segment list `labels key` —
recursively resolve every placeholder occurring in it and substitute the
resolved values back in place.  The unbounded recursion of the source is
indexed by fuel; `none` means the given fuel did not suffice. -/
def invokeLabel (labels : String → List Seg) : Nat → String → Option String
  | 0, _ => none
  | n + 1, key => (resolveSegs (invokeLabel labels n) (labels key)).map String.join

/-- `Refs labels a b`: the label text of `a` contains a placeholder for `b`. -/
def Refs (labels : String → List Seg) (a b : String) : Prop := Seg.ph b ∈ labels a

mutual

/-- Ideal semantics of label resolution: `s` is the label text of `key` with
every placeholder recursively replaced by its resolved value. -/
inductive Resolves (labels : String → List Seg) : String → String → Prop
  | mk {key : String} {parts : List String} :
      SegsResolve labels (labels key) parts → Resolves labels key (String.join parts)

/-- Pointwise ideal resolution of a segment list. -/
inductive SegsResolve (labels : String → List Seg) : List Seg → List String → Prop
  | nil : SegsResolve labels [] []
  | lit {t : String} {rest : List Seg} {parts : List String} :
      SegsResolve labels rest parts →
      SegsResolve labels (Seg.lit t :: rest) (t :: parts)
  | ph {k v : String} {rest : List Seg} {parts : List String} :
      Resolves labels k v → SegsResolve labels rest parts →
      SegsResolve labels (Seg.ph k :: rest) (v :: parts)

end

/-- Successful segment resolution is preserved when the resolver is replaced
by one that succeeds wherever the first one does. -/
theorem resolveSegs_mono {f g : String → Option String}
    (h : ∀ k s, f k = some s → g k = some s) :
    ∀ (segs : List Seg) (parts : List String),
      resolveSegs f segs = some parts → resolveSegs g segs = some parts := by
  intro segs
  induction segs with
  | nil => intro parts hp; exact hp
  | cons sg rest ih =>
    intro parts hp
    cases sg with
    | lit t =>
      simp only [resolveSegs] at hp ⊢
      obtain ⟨l, hl, rfl⟩ := Option.map_eq_some'.mp hp
      rw [ih l hl]
      rfl
    | ph k =>
      simp only [resolveSegs] at hp ⊢
      cases hfk : f k with
      | none => rw [hfk] at hp; exact absurd hp (by simp)
      | some v =>
        rw [hfk] at hp
        cases hrest : resolveSegs f rest with
        | none => rw [hrest] at hp; exact absurd hp (by simp)
        | some l =>
          rw [hrest] at hp
          rw [h k v hfk, ih l hrest]
          exact hp

/-- One extra unit of fuel preserves every successful resolution. -/
theorem invokeLabel_mono (labels : String → List Seg) :
    ∀ (n : Nat) (k s : String),
      invokeLabel labels n k = some s → invokeLabel labels (n + 1) k = some s := by
  intro n
  induction n with
  | zero => intro k s h; exact absurd h (by simp [invokeLabel])
  | succ m ih =>
    intro k s h
    have h' : (resolveSegs (invokeLabel labels m) (labels k)).map String.join = some s := h
    obtain ⟨parts, hp, rfl⟩ := Option.map_eq_some'.mp h'
    have hres : resolveSegs (invokeLabel labels (m + 1)) (labels k) = some parts :=
      resolveSegs_mono (fun a b hab => ih a b hab) (labels k) parts hp
    show (resolveSegs (invokeLabel labels (m + 1)) (labels k)).map String.join =
      some (String.join parts)
    rw [hres]
    rfl

/-- Any larger fuel preserves every successful resolution. -/
theorem invokeLabel_le (labels : String → List Seg) {n m : Nat} (hnm : n ≤ m) :
    ∀ k s, invokeLabel labels n k = some s → invokeLabel labels m k = some s := by
  induction hnm with
  | refl => intro k s h; exact h
  | step _ ih => intro k s h; exact invokeLabel_mono labels _ k s (ih k s h)

/-- A failing placeholder makes the whole segment list fail. -/
theorem resolveSegs_none {resolve : String → Option String} {k : String}
    (hk : resolve k = none) :
    ∀ segs : List Seg, Seg.ph k ∈ segs → resolveSegs resolve segs = none := by
  intro segs
  induction segs with
  | nil => intro h; cases h
  | cons sg rest ih =>
    intro hmem
    cases sg with
    | lit t =>
      have htail : Seg.ph k ∈ rest := by
        rcases List.mem_cons.mp hmem with heq | htail
        · cases heq
        · exact htail
      simp only [resolveSegs, ih htail]
      rfl
    | ph b =>
      rcases List.mem_cons.mp hmem with heq | htail
      · have hbk : b = k := by injection heq with h; exact h.symm
        subst hbk
        simp only [resolveSegs, hk]
      · simp only [resolveSegs, ih htail]
        cases hres : resolve b <;> rfl

/-- A key that is on a reference cycle exhausts any amount of fuel. -/
theorem invokeLabel_cycle_none (labels : String → List Seg) :
    ∀ (n : Nat) (k : String),
      Relation.TransGen (Refs labels) k k → invokeLabel labels n k = none := by
  intro n
  induction n with
  | zero => intro k _; rfl
  | succ m ih =>
    intro k hcyc
    obtain ⟨b, hkb, hbk⟩ := Relation.TransGen.head'_iff.mp hcyc
    have hbb : Relation.TransGen (Refs labels) b b := Relation.TransGen.tail' hbk hkb
    have hnone : invokeLabel labels m b = none := ih b hbb
    show (resolveSegs (invokeLabel labels m) (labels k)).map String.join = none
    rw [resolveSegs_none hnone (labels k) hkb]
    rfl

/-- A key referencing a key that never resolves never resolves either. -/
theorem invokeLabel_edge_none (labels : String → List Seg) {k b : String}
    (hkb : Refs labels k b)
    (hb : ∀ n, invokeLabel labels n b = none) :
    ∀ n, invokeLabel labels n k = none := by
  intro n
  cases n with
  | zero => rfl
  | succ m =>
    simp only [invokeLabel]
    rw [resolveSegs_none (hb m) (labels k) hkb]
    rfl

/-- A key from which a reference cycle is reachable exhausts any fuel. -/
theorem invokeLabel_reach_cycle_none (labels : String → List Seg) {k c : String}
    (hreach : Relation.ReflTransGen (Refs labels) k c)
    (hcyc : Relation.TransGen (Refs labels) c c) :
    ∀ n, invokeLabel labels n k = none := by
  induction hreach using Relation.ReflTransGen.head_induction_on with
  | refl => exact fun n => invokeLabel_cycle_none labels n c hcyc
  | head hab _ ih => exact invokeLabel_edge_none labels hab ih

/-- A segment list all of whose placeholders resolve, resolves with enough
fuel, to the ideal values. -/
theorem resolveSegs_total (labels : String → List Seg) :
    ∀ segs : List Seg,
      (∀ k, Seg.ph k ∈ segs →
        ∃ n s, invokeLabel labels n k = some s ∧ Resolves labels k s) →
      ∃ N parts, resolveSegs (invokeLabel labels N) segs = some parts ∧
        SegsResolve labels segs parts := by
  intro segs
  induction segs with
  | nil => intro _; exact ⟨0, [], rfl, SegsResolve.nil⟩
  | cons sg rest ih =>
    intro H
    obtain ⟨N, parts, hres, hsr⟩ := ih (fun k hk => H k (List.mem_cons_of_mem _ hk))
    cases sg with
    | lit t =>
      refine ⟨N, t :: parts, ?_, SegsResolve.lit hsr⟩
      simp only [resolveSegs, hres]
      rfl
    | ph k =>
      obtain ⟨n, s, hn, hResk⟩ := H k (List.mem_cons_self _ _)
      refine ⟨max n N, s :: parts, ?_, SegsResolve.ph hResk hsr⟩
      have h1 : invokeLabel labels (max n N) k = some s :=
        invokeLabel_le labels (le_max_left n N) k s hn
      have h2 : resolveSegs (invokeLabel labels (max n N)) rest = some parts :=
        resolveSegs_mono
          (fun a b hab => invokeLabel_le labels (le_max_right n N) a b hab)
          rest parts hres
      simp only [resolveSegs, h1, h2]

/-- An accessible key (no infinite reference chain from it) resolves with
enough fuel, to its ideal value. -/
theorem invokeLabel_acc_total (labels : String → List Seg) :
    ∀ key : String, Acc (fun a b => Refs labels b a) key →
      ∃ n s, invokeLabel labels n key = some s ∧ Resolves labels key s := by
  intro key hacc
  induction hacc with
  | intro key hpred ih =>
    obtain ⟨N, parts, hres, hsr⟩ :=
      resolveSegs_total labels (labels key) (fun k hk => ih k hk)
    refine ⟨N + 1, String.join parts, ?_, Resolves.mk hsr⟩
    simp only [invokeLabel, hres]
    rfl

/-- **C10.** When the placeholder-reference relation reachable from a key is
acyclic (the key is accessible), `invokeLabel` terminates on it and returns
the label text with every placeholder recursively replaced by its resolved
value; when a reference cycle is reachable from the key — in particular when
the key's label transitively references the key itself — the recursion never
terminates (every fuel bound is exhausted). -/
theorem C10_invokeLabel_termination (labels : String → List Seg) (key : String) :
    (Acc (fun a b => Refs labels b a) key →
      ∃ n s, invokeLabel labels n key = some s ∧ Resolves labels key s) ∧
    (∀ c, Relation.ReflTransGen (Refs labels) key c →
      Relation.TransGen (Refs labels) c c →
      ∀ n, invokeLabel labels n key = none) :=
  ⟨invokeLabel_acc_total labels key,
   fun _ hreach hcyc => invokeLabel_reach_cycle_none labels hreach hcyc⟩

/-- A concrete label table: the key "loop" references itself, every other key
is the literal text "hi". -/
def labels0 : String → List Seg :=
  fun k => if k = "loop" then [Seg.ph "loop"] else [Seg.lit "hi"]

/-- Witness for C10 at a concrete label table: the placeholder-free key
"greet" resolves, the self-referential key "loop" exhausts fuel 7. -/
theorem C10_invokeLabel_termination_witness :
    (∃ n s, invokeLabel labels0 n "greet" = some s ∧ Resolves labels0 "greet" s) ∧
    invokeLabel labels0 7 "loop" = none := by
  constructor
  · apply (C10_invokeLabel_termination labels0 "greet").1
    constructor
    intro y hy
    exfalso
    have : Seg.ph y ∈ labels0 "greet" := hy
    simp [labels0] at this
  · exact (C10_invokeLabel_termination labels0 "loop").2 "loop"
      Relation.ReflTransGen.refl
      (Relation.TransGen.single (show Seg.ph "loop" ∈ labels0 "loop" by simp [labels0]))
      7

end RimManifest
